import Mathlib

/-!
Verification of the Quarto board engine (`src/board.rs`, `src/printable.rs`).

The board is a 128-bit integer (`u128` in the source), modelled here as a
`Nat` together with explicit `% 2 ^ 128` where the source's wrapping
arithmetic matters.  Each of the 16 cells occupies 8 bits; cell index `i`
(0..15) sits at bit offset `(15 - i) * 8`.  Within a cell byte, bit 0 is the
existence flag and bits 4..7 are the four piece attributes.
-/

namespace Quarto

/-- `PIECE_SIZE` from src/board.rs: the bit size of a single cell. -/
def PIECE_SIZE : Nat := 8

/-- `COLUMN` from src/board.rs: existence bits of the right-most column. -/
def COLUMN : Nat :=
  0b1 + (0b1 <<< (4 * PIECE_SIZE)) + (0b1 <<< (8 * PIECE_SIZE)) + (0b1 <<< (12 * PIECE_SIZE))

/-- `ROW` from src/board.rs: existence bits of the lowest row. -/
def ROW : Nat :=
  0b1 + (0b1 <<< PIECE_SIZE) + (0b1 <<< (2 * PIECE_SIZE)) + (0b1 <<< (3 * PIECE_SIZE))

/-- `BOARD_MASK` from src/board.rs: all 16 existence bits. -/
def BOARD_MASK : Nat :=
  COLUMN + (COLUMN <<< PIECE_SIZE) + (COLUMN <<< (PIECE_SIZE * 2)) + (COLUMN <<< (PIECE_SIZE * 3))

/-- `DIAG_DOWN` from src/board.rs: existence bits of the down diagonal
(cells 0, 5, 10, 15). -/
def DIAG_DOWN : Nat :=
  0b1 + (0b1 <<< (5 * PIECE_SIZE)) + (0b1 <<< (10 * PIECE_SIZE)) + (0b1 <<< (15 * PIECE_SIZE))

/-- `DIAG_UP` from src/board.rs: existence bits of the up diagonal
(cells 3, 6, 9, 12). -/
def DIAG_UP : Nat :=
  (0b1 <<< (3 * PIECE_SIZE)) + (0b1 <<< (6 * PIECE_SIZE)) + (0b1 <<< (9 * PIECE_SIZE))
    + (0b1 <<< (12 * PIECE_SIZE))

/-- `Piece` from src/printable.rs: four boolean attributes. -/
structure Piece where
  hole : Bool
  square : Bool
  high : Bool
  dark : Bool
deriving DecidableEq, Repr

/-- `Piece::from_u8` from src/printable.rs: decode a cell byte.  Returns
`none` when the existence bit (bit 0) is clear, otherwise reads the four
attributes from bits 7, 6, 5, 4. -/
def Piece.from_u8 (input : Nat) : Option Piece :=
  if (input &&& 1) == 0 then none
  else some
    { hole := (input &&& (1 <<< 7)) == (1 <<< 7)
      square := (input &&& (1 <<< 6)) == (1 <<< 6)
      high := (input &&& (1 <<< 5)) == (1 <<< 5)
      dark := (input &&& (1 <<< 4)) == (1 <<< 4) }

/-- `Piece::to_number` from src/printable.rs: the 4-bit ordinal
(hole, square, high, dark from most to least significant). -/
def Piece.to_number (p : Piece) : Nat :=
  (p.hole.toNat <<< 3) + (p.square.toNat <<< 2) + (p.high.toNat <<< 1) + p.dark.toNat

/-- Modelled from the spec: `Piece::to_u8` is called by `Board::from_printable`
(src/board.rs line 57) but its definition is not present under src/.  The
spec's `piece_ordinal(Piece) -> integer 0..15` is "a stable numbering of the
16 pieces derived by treating the four attributes as a 4-bit number in the
same fixed order", i.e. exactly `Piece::to_number`, and it is what the Board
Engine consumes for placement. -/
def Piece.to_u8 (p : Piece) : Nat := p.to_number

/-- `Board` from src/board.rs: the packed 128-bit board. -/
structure Board where
  items : Nat
deriving DecidableEq, Repr

/-- `Board::new` from src/board.rs. -/
def Board.new : Board := ⟨0⟩

/-- `Board::is_empty` from src/board.rs. -/
def Board.is_empty (b : Board) (index : Nat) : Bool :=
  if 15 < index then false
  else (b.items &&& (0b1 <<< ((15 - index) * PIECE_SIZE))) == 0

/-- `Board::row` from src/board.rs: is the row completely occupied. -/
def Board.row (b : Board) (row : Nat) : Bool :=
  if 3 < row then false
  else
    let row_mask := ROW <<< (4 * PIECE_SIZE * (3 - row))
    (b.items &&& row_mask) == row_mask

/-- `Board::column` from src/board.rs: is the column completely occupied. -/
def Board.column (b : Board) (column : Nat) : Bool :=
  if 3 < column then false
  else
    let col_mask := COLUMN <<< (PIECE_SIZE * (3 - column))
    (b.items &&& col_mask) == col_mask

/-- `Board::winning_row` from src/board.rs.  The source loop over
`t in 4..8` returns `true` at the first `t` whose attribute mask is all set
or all clear, which is `List.any` over `[4, 5, 6, 7]`. -/
def Board.winning_row (b : Board) (row : Nat) : Bool :=
  if !(b.row row) then false
  else
    [4, 5, 6, 7].any fun t =>
      let row_mask := ROW <<< (4 * PIECE_SIZE * (3 - row) + t)
      ((b.items &&& row_mask) == row_mask) || ((b.items &&& row_mask) == 0)

/-- `Board::winning_column` from src/board.rs. -/
def Board.winning_column (b : Board) (column : Nat) : Bool :=
  if !(b.column column) then false
  else
    [4, 5, 6, 7].any fun t =>
      let col_mask := COLUMN <<< (PIECE_SIZE * (3 - column) + t)
      ((b.items &&& col_mask) == col_mask) || ((b.items &&& col_mask) == 0)

/-- `Board::winning_diagonal` from src/board.rs.  The source loop over
`t in 4..8` returns `true` at the first `t` where either diagonal is
complete and all set or all clear on attribute bit `t`. -/
def Board.winning_diagonal (b : Board) : Bool :=
  [4, 5, 6, 7].any fun t =>
    let diag_up_mask := DIAG_UP <<< t
    let diag_down_mask := DIAG_DOWN <<< t
    (((b.items &&& DIAG_UP) == DIAG_UP) &&
      (((b.items &&& diag_up_mask) == diag_up_mask) || ((b.items &&& diag_up_mask) == 0))) ||
    (((b.items &&& DIAG_DOWN) == DIAG_DOWN) &&
      (((b.items &&& diag_down_mask) == diag_down_mask) || ((b.items &&& diag_down_mask) == 0)))

/-- `Board::has_winner` from src/board.rs: rows and columns 0..3 first,
then the diagonals. -/
def Board.has_winner (b : Board) : Bool :=
  ((List.range 4).any fun i => b.winning_row i || b.winning_column i) || b.winning_diagonal

/-- `Board::board_full` from src/board.rs. -/
def Board.board_full (b : Board) : Bool :=
  (b.items &&& BOARD_MASK) == BOARD_MASK

/-- `Board::game_over` from src/board.rs. -/
def Board.game_over (b : Board) : Bool :=
  b.has_winner || b.board_full

/-- `Board::valid_piece` from src/board.rs.  The source loop over
`p in 0..16` returns `false` as soon as a cell's existence bit is set and
the candidate's 1-bits are all present in that cell's attribute bits. -/
def Board.valid_piece (b : Board) (piece : Nat) : Bool :=
  if 15 < piece then false
  else
    (List.range 16).all fun p =>
      let piece_mask := piece <<< (PIECE_SIZE * p + 4)
      !(((b.items &&& (1 <<< (PIECE_SIZE * p))) != 0) &&
        ((b.items &&& piece_mask) == piece_mask))

/-- `Board::put_piece` from src/board.rs.  Returns the (possibly updated)
board and the success flag.  Note that the occupancy guard of the source,
`(1 << PIECE_SIZE * bit_index + 1) & self.items != 0`, by Rust operator
precedence shifts by `PIECE_SIZE * bit_index + 1` (bit 1 of the cell byte),
which we reproduce verbatim.  The `+=` on `u128` is modelled with an
explicit `% 2 ^ 128`. -/
def Board.put_piece (b : Board) (piece index : Nat) : Board × Bool :=
  if decide (15 < index) || !(b.valid_piece piece) then (b, false)
  else
    let bit_index := 15 - index
    if ((1 <<< (PIECE_SIZE * bit_index + 1)) &&& b.items) != 0 then (b, false)
    else
      (⟨(b.items + ((1 <<< (PIECE_SIZE * bit_index)) + (piece <<< (PIECE_SIZE * bit_index + 4))))
          % 2 ^ 128⟩, true)

/-- `PrintableBoard` from src/printable.rs. -/
structure PrintableBoard where
  items : List (Option Piece)
deriving DecidableEq, Repr

/-- `PrintableBoard::from_board` from src/printable.rs: for `shift` from 15
down to 0, decode the byte `(items >> (PIECE_SIZE * shift)) & 255`. -/
def PrintableBoard.from_board (b : Board) : PrintableBoard :=
  ⟨(List.range 16).reverse.map fun shift =>
    Piece.from_u8 ((b.items >>> (PIECE_SIZE * shift)) &&& 255)⟩

/-- The enumerated placement loop of `Board::from_printable`
(src/board.rs): place each present piece at its index via `put_piece`,
stopping with an error at the first failure. -/
def Board.from_printable_aux : Board → Nat → List (Option Piece) → Except String Board
  | b, _, [] => Except.ok b
  | b, i, none :: rest => Board.from_printable_aux b (i + 1) rest
  | b, i, some piece :: rest =>
    let r := b.put_piece piece.to_u8 i
    if r.2 then Board.from_printable_aux r.1 (i + 1) rest
    else Except.error ("Unable to put item on board! Perhaps it already exists?")

/-- `Board::from_printable` from src/board.rs. -/
def Board.from_printable (pboard : PrintableBoard) : Except String Board :=
  if pboard.items.length != 16 then
    Except.error ("The PrintableBoard does not contain 16 elements!")
  else Board.from_printable_aux Board.new 0 pboard.items

/-- The byte a piece occupies in a cell: existence bit plus the 4-bit
ordinal in bits 4..7, exactly what `Board::put_piece` writes into an empty
cell. -/
def Piece.cell_byte (p : Piece) : Nat := (p.to_number <<< 4) ||| 1

/-- The 8-bit field of cell `i` of a board, extracted exactly as
`PrintableBoard::from_board` does: `(items >> (PIECE_SIZE * (15 - i))) & 255`. -/
def Board.cell_byte (b : Board) (i : Nat) : Nat :=
  (b.items >>> (PIECE_SIZE * (15 - i))) &&& 255

/-- The availability predicate in the spec's words (section 4.2):
`is_piece_available(piece)` is "true unless some occupied cell already
carries exactly this piece's attribute pattern".  Used to compare
`Board::valid_piece` against its specification. -/
def Board.available_spec (b : Board) (piece : Nat) : Bool :=
  (List.range 16).all fun i =>
    !(((b.cell_byte i &&& 1) == 1) && ((b.cell_byte i >>> 4) == piece))

/-- The board holding exactly four pieces at row-0 cells 0, 1, 2, 3 (byte
offsets 120, 112, 104, 96) and nothing anywhere else, each occupied cell
carrying the byte `put_piece` would write there. -/
def Board.of_row0 (p0 p1 p2 p3 : Piece) : Board :=
  ⟨(p0.cell_byte <<< 120) + (p1.cell_byte <<< 112) + (p2.cell_byte <<< 104)
    + (p3.cell_byte <<< 96)⟩

/-- The board holding exactly four pieces at the down-diagonal cells
0, 5, 10, 15 (byte offsets 120, 80, 40, 0) and nothing anywhere else. -/
def Board.of_diag (p0 p1 p2 p3 : Piece) : Board :=
  ⟨(p0.cell_byte <<< 120) + (p1.cell_byte <<< 80) + (p2.cell_byte <<< 40) + p3.cell_byte⟩

instance {ε α : Type} [DecidableEq ε] [DecidableEq α] : DecidableEq (Except ε α) := fun a b =>
  match a, b with
  | Except.ok x, Except.ok y =>
    if h : x = y then isTrue (by rw [h]) else isFalse (fun hh => h (by injection hh))
  | Except.error x, Except.error y =>
    if h : x = y then isTrue (by rw [h]) else isFalse (fun hh => h (by injection hh))
  | Except.ok _, Except.error _ => isFalse (fun hh => Except.noConfusion hh)
  | Except.error _, Except.ok _ => isFalse (fun hh => Except.noConfusion hh)

/-- C6: encoding a piece to its cell byte and decoding it with
`Piece::from_u8` returns the piece itself, for every one of the 16 pieces. -/
theorem from_u8_cell_byte (p : Piece) :
    Piece.from_u8 ((p.to_number <<< 4) ||| 1) = some p := by
  obtain ⟨h, s, hi, d⟩ := p
  cases h <;> cases s <;> cases hi <;> cases d <;> rfl

/-- C7: `put_piece` with an out-of-range index or an out-of-range piece
returns `false` and leaves the board unchanged. -/
theorem put_piece_out_of_range (b : Board) (piece index : Nat)
    (h : 15 < index ∨ 15 < piece) :
    b.put_piece piece index = (b, false) := by
  rcases h with h | h
  · unfold Board.put_piece
    simp [h]
  · have hv : b.valid_piece piece = false := by
      unfold Board.valid_piece
      simp [h]
    unfold Board.put_piece
    simp [hv]

theorem put_piece_out_of_range_witness :
    Board.new.put_piece 16 0 = (Board.new, false) ∧
    Board.new.put_piece 0 16 = (Board.new, false) :=
  ⟨put_piece_out_of_range Board.new 16 0 (Or.inr (by decide)),
   put_piece_out_of_range Board.new 0 16 (Or.inl (by decide))⟩

/-- C8: `is_empty index` is `true` exactly when `index` is in range and the
existence bit of that cell is clear, and every out-of-range index
(every `16 + i`) yields `false` rather than an error. -/
theorem is_empty_iff (b : Board) (i : Nat) :
    (b.is_empty i = true ↔ i ≤ 15 ∧ b.items.testBit ((15 - i) * PIECE_SIZE) = false) ∧
    b.is_empty (16 + i) = false := by
  constructor
  · unfold Board.is_empty
    by_cases h : 15 < i
    · simp only [if_pos h]
      constructor
      · intro hfalse
        exact absurd hfalse (by simp)
      · intro ⟨hle, _⟩
        omega
    · simp only [if_neg h]
      rw [Nat.one_shiftLeft, beq_iff_eq, Nat.and_two_pow]
      have hle : i ≤ 15 := by omega
      rcases hb : b.items.testBit ((15 - i) * PIECE_SIZE) <;>
        simp [hb, hle, Nat.pow_eq_zero]
  · unfold Board.is_empty
    simp only [if_pos (show 15 < 16 + i by omega)]

/-- A successful `put_piece` call implies the index was in range and the
result is the wrapped sum of the old state with the existence bit and the
shifted piece pattern. -/
theorem put_piece_success (b : Board) (piece index : Nat)
    (hs : (b.put_piece piece index).2 = true) :
    index ≤ 15 ∧
    (b.put_piece piece index).1.items =
      (b.items + ((1 <<< (PIECE_SIZE * (15 - index))) +
        (piece <<< (PIECE_SIZE * (15 - index) + 4)))) % 2 ^ 128 := by
  unfold Board.put_piece at hs ⊢
  by_cases h1 : (decide (15 < index) || !(b.valid_piece piece)) = true
  · rw [if_pos h1] at hs
    simp at hs
  · rw [if_neg h1] at hs ⊢
    have hidx : index ≤ 15 := by
      rcases Nat.lt_or_ge 15 index with h | h
      · exact absurd (by simp [h]) h1
      · omega
    by_cases h2 : (((1 <<< (PIECE_SIZE * (15 - index) + 1)) &&& b.items) != 0) = true
    · simp only [h2, if_pos] at hs
      simp at hs
    · simp only [h2] at hs ⊢
      simp only [Bool.false_eq_true, if_neg, if_false] at hs ⊢
      exact ⟨hidx, trivial⟩

/-- The cell extraction is a divide and a mod. -/
theorem cell_byte_div (b : Board) (i : Nat) :
    b.cell_byte i = b.items / 2 ^ (PIECE_SIZE * (15 - i)) % 2 ^ 8 := by
  unfold Board.cell_byte
  rw [Nat.shiftRight_eq_div_pow]
  have h255 : (255 : Nat) = 2 ^ 8 - 1 := rfl
  rw [h255, Nat.and_pow_two_sub_one_eq_mod]

set_option maxHeartbeats 2000000 in
/-- C9: when `put_piece` succeeds on a cell whose entire 8-bit field is
zero, that cell's byte becomes exactly `(piece << 4) | 1` and the fields of
the fifteen other cells are unchanged. -/
theorem put_piece_frame (b : Board) (piece index : Nat)
    (hb : b.items < 2 ^ 128) (hp : piece ≤ 15) (hi : index ≤ 15)
    (hcell : b.cell_byte index = 0)
    (hs : (b.put_piece piece index).2 = true) :
    (b.put_piece piece index).1.cell_byte index = ((piece <<< 4) ||| 1) ∧
    ∀ j, j ≤ 15 → j ≠ index → (b.put_piece piece index).1.cell_byte j = b.cell_byte j := by
  obtain ⟨-, heq⟩ := put_piece_success b piece index hs
  have hbyte : ((piece <<< 4) ||| 1) = 16 * piece + 1 := by
    interval_cases piece <;> rfl
  rw [cell_byte_div] at hcell
  constructor
  · rw [cell_byte_div, heq, Nat.shiftLeft_eq, Nat.shiftLeft_eq, hbyte]
    simp only [PIECE_SIZE] at *
    interval_cases index <;> omega
  · intro j hj hne
    rw [cell_byte_div, cell_byte_div, heq, Nat.shiftLeft_eq, Nat.shiftLeft_eq]
    simp only [PIECE_SIZE] at *
    interval_cases index <;> interval_cases j <;> omega

theorem put_piece_frame_witness :
    (Board.new.put_piece 2 3).1.cell_byte 3 = ((2 <<< 4) ||| 1) ∧
    (Board.new.put_piece 2 3).1.cell_byte 0 = Board.new.cell_byte 0 :=
  ⟨(put_piece_frame Board.new 2 3 (by decide) (by decide) (by decide) (by decide)
      (by decide)).1,
   (put_piece_frame Board.new 2 3 (by decide) (by decide) (by decide) (by decide)
      (by decide)).2 0 (by decide) (by decide)⟩

/-- C1: the occupied-cell guard of `put_piece` tests the wrong bit.  From
the empty board, `put_piece 0 0` succeeds (cell 0 becomes occupied, so
`is_empty 0` is `false`), yet `put_piece 1 0` into that occupied cell
returns `true` and changes the 128-bit state, because the guard
`(1 << PIECE_SIZE * bit_index + 1) & items` reads bit 1 of the cell byte
instead of the existence bit 0. -/
theorem put_piece_occupied_cell_bug :
    Board.new.put_piece 0 0 = (⟨2 ^ 120⟩, true) ∧
    Board.is_empty ⟨2 ^ 120⟩ 0 = false ∧
    Board.put_piece ⟨2 ^ 120⟩ 1 0 = (⟨2 ^ 121 + 2 ^ 124⟩, true) ∧
    (⟨2 ^ 121 + 2 ^ 124⟩ : Board) ≠ ⟨2 ^ 120⟩ := by
  refine ⟨by decide, by decide, by decide, by decide⟩

/-- C2: `valid_piece` does not test for an exact attribute pattern.  After
placing piece 1 (dark only) at cell 0, no occupied cell carries exactly
pattern 0 (the spec-worded availability predicate says piece 0 is still
available), yet `valid_piece 0` returns `false`, because the source checks
`items & piece_mask == piece_mask`, a superset test on the candidate's
1-bits, which is vacuous for piece 0. -/
theorem valid_piece_exact_pattern_bug :
    Board.new.put_piece 1 0 = (⟨2 ^ 120 + 2 ^ 124⟩, true) ∧
    Board.available_spec ⟨2 ^ 120 + 2 ^ 124⟩ 0 = true ∧
    Board.valid_piece ⟨2 ^ 120 + 2 ^ 124⟩ 0 = false := by
  refine ⟨by decide, by decide, by decide⟩

/-- C3: the printable round-trip fails on a board reachable by two
successful `put_piece` calls.  Placing piece 0 at index 1 and then piece 1
at index 0 succeeds (both calls return `true`), but converting the
resulting board with `from_board` and back with `from_printable` replays
the placements in index order, and `put_piece 0 1` then fails because
`valid_piece 0` is `false` on any non-empty board, so `from_printable`
returns an error instead of reproducing the board. -/
theorem round_trip_bug :
    Board.new.put_piece 0 1 = (⟨2 ^ 112⟩, true) ∧
    Board.put_piece ⟨2 ^ 112⟩ 1 0 = (⟨2 ^ 112 + 2 ^ 120 + 2 ^ 124⟩, true) ∧
    Board.from_printable (PrintableBoard.from_board ⟨2 ^ 112 + 2 ^ 120 + 2 ^ 124⟩) =
      Except.error ("Unable to put item on board! Perhaps it already exists?") := by
  refine ⟨by decide, by decide, by decide⟩

set_option maxHeartbeats 4000000 in
/-- C4: a board holding exactly four pieces at row-0 cells 0..3 that all
share `hole = true` (fill present) and pairwise differ on the
shape/size/color triple wins row 0 and no other line: rows 1..3 and all
four columns are not winning, and neither diagonal is. -/
theorem row0_shared_fill_wins (p0 p1 p2 p3 : Piece)
    (h0 : p0.hole = true) (h1 : p1.hole = true) (h2 : p2.hole = true) (h3 : p3.hole = true)
    (h01 : (p0.square, p0.high, p0.dark) ≠ (p1.square, p1.high, p1.dark))
    (h02 : (p0.square, p0.high, p0.dark) ≠ (p2.square, p2.high, p2.dark))
    (h03 : (p0.square, p0.high, p0.dark) ≠ (p3.square, p3.high, p3.dark))
    (h12 : (p1.square, p1.high, p1.dark) ≠ (p2.square, p2.high, p2.dark))
    (h13 : (p1.square, p1.high, p1.dark) ≠ (p3.square, p3.high, p3.dark))
    (h23 : (p2.square, p2.high, p2.dark) ≠ (p3.square, p3.high, p3.dark)) :
    (Board.of_row0 p0 p1 p2 p3).winning_row 0 = true ∧
    (Board.of_row0 p0 p1 p2 p3).winning_row 1 = false ∧
    (Board.of_row0 p0 p1 p2 p3).winning_row 2 = false ∧
    (Board.of_row0 p0 p1 p2 p3).winning_row 3 = false ∧
    (Board.of_row0 p0 p1 p2 p3).winning_column 0 = false ∧
    (Board.of_row0 p0 p1 p2 p3).winning_column 1 = false ∧
    (Board.of_row0 p0 p1 p2 p3).winning_column 2 = false ∧
    (Board.of_row0 p0 p1 p2 p3).winning_column 3 = false ∧
    (Board.of_row0 p0 p1 p2 p3).winning_diagonal = false := by
  clear h01 h02 h03 h12 h13 h23
  obtain ⟨a0, b0, c0, d0⟩ := p0
  obtain ⟨a1, b1, c1, d1⟩ := p1
  obtain ⟨a2, b2, c2, d2⟩ := p2
  obtain ⟨a3, b3, c3, d3⟩ := p3
  simp only [Piece.hole] at h0 h1 h2 h3
  subst h0 h1 h2 h3
  revert b0 c0 d0 b1 c1 d1 b2 c2 d2 b3 c3 d3
  decide

theorem row0_shared_fill_wins_witness :
    (Board.of_row0 ⟨true, false, false, false⟩ ⟨true, true, false, false⟩
        ⟨true, false, true, false⟩ ⟨true, false, false, true⟩).winning_row 0 = true ∧
    (Board.of_row0 ⟨true, false, false, false⟩ ⟨true, true, false, false⟩
        ⟨true, false, true, false⟩ ⟨true, false, false, true⟩).winning_row 1 = false ∧
    (Board.of_row0 ⟨true, false, false, false⟩ ⟨true, true, false, false⟩
        ⟨true, false, true, false⟩ ⟨true, false, false, true⟩).winning_row 2 = false ∧
    (Board.of_row0 ⟨true, false, false, false⟩ ⟨true, true, false, false⟩
        ⟨true, false, true, false⟩ ⟨true, false, false, true⟩).winning_row 3 = false ∧
    (Board.of_row0 ⟨true, false, false, false⟩ ⟨true, true, false, false⟩
        ⟨true, false, true, false⟩ ⟨true, false, false, true⟩).winning_column 0 = false ∧
    (Board.of_row0 ⟨true, false, false, false⟩ ⟨true, true, false, false⟩
        ⟨true, false, true, false⟩ ⟨true, false, false, true⟩).winning_column 1 = false ∧
    (Board.of_row0 ⟨true, false, false, false⟩ ⟨true, true, false, false⟩
        ⟨true, false, true, false⟩ ⟨true, false, false, true⟩).winning_column 2 = false ∧
    (Board.of_row0 ⟨true, false, false, false⟩ ⟨true, true, false, false⟩
        ⟨true, false, true, false⟩ ⟨true, false, false, true⟩).winning_column 3 = false ∧
    (Board.of_row0 ⟨true, false, false, false⟩ ⟨true, true, false, false⟩
        ⟨true, false, true, false⟩ ⟨true, false, false, true⟩).winning_diagonal = false :=
  row0_shared_fill_wins ⟨true, false, false, false⟩ ⟨true, true, false, false⟩
    ⟨true, false, true, false⟩ ⟨true, false, false, true⟩ rfl rfl rfl rfl
    (by decide) (by decide) (by decide) (by decide) (by decide) (by decide)

set_option maxHeartbeats 8000000 in
/-- C5: a board holding exactly four pieces at the down-diagonal cells
0, 5, 10, 15 that all share `dark = true` and pairwise differ on the
fill/shape/size triple wins the diagonal, while no row and no column is
winning, so `has_winner` is true solely because of the diagonal. -/
theorem diag_shared_dark_wins (p0 p1 p2 p3 : Piece)
    (h0 : p0.dark = true) (h1 : p1.dark = true) (h2 : p2.dark = true) (h3 : p3.dark = true)
    (h01 : (p0.hole, p0.square, p0.high) ≠ (p1.hole, p1.square, p1.high))
    (h02 : (p0.hole, p0.square, p0.high) ≠ (p2.hole, p2.square, p2.high))
    (h03 : (p0.hole, p0.square, p0.high) ≠ (p3.hole, p3.square, p3.high))
    (h12 : (p1.hole, p1.square, p1.high) ≠ (p2.hole, p2.square, p2.high))
    (h13 : (p1.hole, p1.square, p1.high) ≠ (p3.hole, p3.square, p3.high))
    (h23 : (p2.hole, p2.square, p2.high) ≠ (p3.hole, p3.square, p3.high)) :
    (Board.of_diag p0 p1 p2 p3).winning_diagonal = true ∧
    (Board.of_diag p0 p1 p2 p3).winning_row 0 = false ∧
    (Board.of_diag p0 p1 p2 p3).winning_row 1 = false ∧
    (Board.of_diag p0 p1 p2 p3).winning_row 2 = false ∧
    (Board.of_diag p0 p1 p2 p3).winning_row 3 = false ∧
    (Board.of_diag p0 p1 p2 p3).winning_column 0 = false ∧
    (Board.of_diag p0 p1 p2 p3).winning_column 1 = false ∧
    (Board.of_diag p0 p1 p2 p3).winning_column 2 = false ∧
    (Board.of_diag p0 p1 p2 p3).winning_column 3 = false ∧
    (Board.of_diag p0 p1 p2 p3).has_winner = true := by
  clear h01 h02 h03 h12 h13 h23
  obtain ⟨a0, b0, c0, d0⟩ := p0
  obtain ⟨a1, b1, c1, d1⟩ := p1
  obtain ⟨a2, b2, c2, d2⟩ := p2
  obtain ⟨a3, b3, c3, d3⟩ := p3
  simp only [Piece.dark] at h0 h1 h2 h3
  subst h0 h1 h2 h3
  revert a0 b0 c0 a1 b1 c1 a2 b2 c2 a3 b3 c3
  decide

theorem diag_shared_dark_wins_witness :
    (Board.of_diag ⟨false, false, false, true⟩ ⟨true, false, false, true⟩
        ⟨false, true, false, true⟩ ⟨false, false, true, true⟩).winning_diagonal = true ∧
    (Board.of_diag ⟨false, false, false, true⟩ ⟨true, false, false, true⟩
        ⟨false, true, false, true⟩ ⟨false, false, true, true⟩).winning_row 0 = false ∧
    (Board.of_diag ⟨false, false, false, true⟩ ⟨true, false, false, true⟩
        ⟨false, true, false, true⟩ ⟨false, false, true, true⟩).winning_row 1 = false ∧
    (Board.of_diag ⟨false, false, false, true⟩ ⟨true, false, false, true⟩
        ⟨false, true, false, true⟩ ⟨false, false, true, true⟩).winning_row 2 = false ∧
    (Board.of_diag ⟨false, false, false, true⟩ ⟨true, false, false, true⟩
        ⟨false, true, false, true⟩ ⟨false, false, true, true⟩).winning_row 3 = false ∧
    (Board.of_diag ⟨false, false, false, true⟩ ⟨true, false, false, true⟩
        ⟨false, true, false, true⟩ ⟨false, false, true, true⟩).winning_column 0 = false ∧
    (Board.of_diag ⟨false, false, false, true⟩ ⟨true, false, false, true⟩
        ⟨false, true, false, true⟩ ⟨false, false, true, true⟩).winning_column 1 = false ∧
    (Board.of_diag ⟨false, false, false, true⟩ ⟨true, false, false, true⟩
        ⟨false, true, false, true⟩ ⟨false, false, true, true⟩).winning_column 2 = false ∧
    (Board.of_diag ⟨false, false, false, true⟩ ⟨true, false, false, true⟩
        ⟨false, true, false, true⟩ ⟨false, false, true, true⟩).winning_column 3 = false ∧
    (Board.of_diag ⟨false, false, false, true⟩ ⟨true, false, false, true⟩
        ⟨false, true, false, true⟩ ⟨false, false, true, true⟩).has_winner = true :=
  diag_shared_dark_wins ⟨false, false, false, true⟩ ⟨true, false, false, true⟩
    ⟨false, true, false, true⟩ ⟨false, false, true, true⟩ rfl rfl rfl rfl
    (by decide) (by decide) (by decide) (by decide) (by decide) (by decide)

/-- C10: `Piece::from_u8` ignores the three reserved bits 1..3: decoding
any byte gives the same result as decoding the byte masked to its
existence bit and four attribute bits, `b & 0b11110001`. -/
theorem from_u8_reserved_bits (b : Nat) :
    Piece.from_u8 b = Piece.from_u8 (b &&& 0b11110001) := by
  unfold Piece.from_u8
  have h : ∀ m : Nat, 241 &&& m = m → (b &&& 241) &&& m = b &&& m := by
    intro m hm
    rw [Nat.land_assoc, hm]
  rw [h 1 (by decide), h (1 <<< 7) (by decide), h (1 <<< 6) (by decide),
    h (1 <<< 5) (by decide), h (1 <<< 4) (by decide)]

end Quarto
